import Mathlib

/-!
Shallow embedding of `src/main.py` of the tech_challenge_4 repository:
a FastAPI service that serves predictions from a pre-loaded model pipeline
and runs a scheduled drift-monitoring cycle (`monitor_drifts`) comparing a
fixed reference snapshot of the seaborn diamonds dataset against a freshly
resampled batch.

The comparator modules `src/data_drift.py` (detect_data_drift) and
`src/concept_drift.py` (detect_concept_drift) are imported by `main.py`
but are not present in the repository sources; they are modelled from the
specification (FeatureComparator, section 4.1, and PerformanceComparator,
section 4.2).  Everything else is translated from `main.py` directly.
-/

namespace TechChallenge

/-- A feature table: named columns of (numerically encoded) values,
mirroring the pandas DataFrames manipulated by `main.py`. -/
structure FeatureTable where
  cols : List (String × List ℚ)
deriving DecidableEq

/-- The column names of a feature table, in order. -/
def FeatureTable.names (t : FeatureTable) : List String :=
  t.cols.map Prod.fst

/-- Number of rows of a table, read off the first column
(pandas DataFrames have equal-length columns). -/
def nrows (t : FeatureTable) : ℕ :=
  match t.cols with
  | [] => 0
  | c :: _ => c.2.length

/-- A table is well formed when every column has the common row count. -/
def WellFormed (t : FeatureTable) : Prop :=
  ∀ c ∈ t.cols, c.2.length = nrows t

/-- Look up the values of the column named `nm` (first match),
the empty column if absent. -/
def colOf (t : FeatureTable) (nm : String) : List ℚ :=
  ((t.cols.find? (fun c => c.1 == nm)).map Prod.snd).getD []

/-- Column selection `df[[cs]]`: keep the listed columns, in the given
order. -/
def select (cs : List String) (t : FeatureTable) : FeatureTable :=
  ⟨cs.filterMap (fun nm => t.cols.find? (fun c => c.1 == nm))⟩

/-- Row sampling with replacement, `df.sample(n, replace=True)`: the
drawn row indices are made explicit as the list `idxs`. -/
def sampleRows (idxs : List ℕ) (t : FeatureTable) : FeatureTable :=
  ⟨t.cols.map (fun c => (c.1, idxs.map (fun i => c.2.getD i 0)))⟩

/-- The error taxonomy of the drift engine (spec section 7). -/
inductive DriftError where
  | SchemaMismatch
  | EmptyInput
  | LabelMismatch
  | ModelUnavailable
  | SourceUnavailable
deriving DecidableEq

/-- Empirical cumulative distribution function of a sample at point `t`. -/
def ecdf (xs : List ℚ) (t : ℚ) : ℚ :=
  ((xs.filter (fun x => x ≤ t)).length : ℚ) / (xs.length : ℚ)

/-- Two-sample Kolmogorov–Smirnov distance: the largest absolute gap
between the two empirical CDFs, taken over all sample points. -/
def ksDistance (ref cur : List ℚ) : ℚ :=
  ((ref ++ cur).map (fun t => |ecdf ref t - ecdf cur t|)).foldr max 0

/-- Modelled from the spec: `detect_data_drift` (module `src/data_drift.py`,
absent from the sources) is the FeatureComparator of spec section 4.1.
It fails with `SchemaMismatch` when the feature-name sets differ and with
`EmptyInput` when either table has zero rows; otherwise it computes a
per-feature Kolmogorov–Smirnov distance, aggregates by the mean, and flags
drift when the score exceeds the configured threshold.  Returns
`(verdict, per-feature detail, score)` as unpacked by `main.py` line 87. -/
def detect_data_drift (threshold : ℚ) (ref cur : FeatureTable) :
    Except DriftError (Bool × List ℚ × ℚ) :=
  if ref.names ≠ cur.names then .error .SchemaMismatch
  else if nrows ref = 0 ∨ nrows cur = 0 then .error .EmptyInput
  else
    let dists := ref.names.map (fun nm => ksDistance (colOf ref nm) (colOf cur nm))
    let score := dists.sum / (dists.length : ℚ)
    .ok (decide (threshold < score), dists, score)

/-- The scoring capability: a read-only prediction operation
`predict(features) -> predictions` (spec section 3, ScoringModel). -/
def ScoringModel : Type := FeatureTable → List ℚ

/-- Mean absolute error of predictions against labels. -/
def mae (preds labels : List ℚ) : ℚ :=
  ((preds.zip labels).map (fun p => |p.1 - p.2|)).sum / (labels.length : ℚ)

/-- Modelled from the spec: `detect_concept_drift` (module
`src/concept_drift.py`, absent from the sources) is the
PerformanceComparator of spec section 4.2.  It fails with
`ModelUnavailable` when the scoring capability is absent and with
`LabelMismatch` when a label count differs from the feature-row count;
otherwise the score is the absolute performance delta between the current
and reference periods under the same model.  Returns `(verdict, score)`
as unpacked by `main.py` line 91. -/
def detect_concept_drift (threshold : ℚ) (model : Option ScoringModel)
    (Xref : FeatureTable) (yref : List ℚ)
    (Xcur : FeatureTable) (ycur : List ℚ) :
    Except DriftError (Bool × ℚ) :=
  match model with
  | none => .error .ModelUnavailable
  | some m =>
    if yref.length ≠ nrows Xref ∨ ycur.length ≠ nrows Xcur then
      .error .LabelMismatch
    else
      let score := |mae (m Xcur) ycur - mae (m Xref) yref|
      .ok (decide (threshold < score), score)

/-- The observable state of the process: the Prometheus metric objects of
`main.py` lines 32–43 together with the reference snapshot (lines 46–48)
and the loaded model pipeline (lines 22–29). -/
structure AppState where
  data_drift_gauge : ℚ
  concept_drift_gauge : ℚ
  query_counter : ℕ
  cpu_usage_gauge : ℚ
  memory_usage_gauge : ℚ
  response_times : List ℚ
  X_reference : FeatureTable
  y_reference : List ℚ
  model_pipeline : Option ScoringModel

/-- The six feature columns selected in `main.py` lines 47 and 83. -/
def featureCols : List String :=
  ["carat", "cut", "color", "clarity", "depth", "table"]

/-- Reference features, `main.py` line 47. -/
def X_reference (diamonds : FeatureTable) : FeatureTable :=
  select featureCols diamonds

/-- Reference labels, `main.py` line 48. -/
def y_reference (diamonds : FeatureTable) : List ℚ :=
  colOf diamonds ("price")

/-- Process startup: load the model pipeline (possibly `none` when the
joblib load fails, lines 22–29), capture the reference snapshot
(lines 46–48), start all gauges and counters at zero. -/
def initState (diamonds : FeatureTable) (model : Option ScoringModel) : AppState :=
  { data_drift_gauge := 0
    concept_drift_gauge := 0
    query_counter := 0
    cpu_usage_gauge := 0
    memory_usage_gauge := 0
    response_times := []
    X_reference := X_reference diamonds
    y_reference := y_reference diamonds
    model_pipeline := model }

/-- The outcome of one request to the `/predict` endpoint. -/
inductive PredictResult where
  | httpError (status : ℕ) (detail : String)
  | parseError
  | ok (prediction : ℚ)

/-- The `/predict` endpoint, `main.py` lines 54–78.  `body` is the parsed
JSON request body turned into a one-row DataFrame (`none` when
`request.json()` raises on a malformed body); `cpu`, `mem` and `elapsed`
stand for the sampled psutil readings and the measured response time.
The returned state reflects exactly the mutations performed before the
function returned or raised. -/
def predict (body : Option FeatureTable) (cpu mem elapsed : ℚ)
    (s : AppState) : AppState × PredictResult :=
  match s.model_pipeline with
  | none => (s, .httpError 500 ("Model pipeline not loaded properly"))
  | some m =>
    let s1 := { s with
      query_counter := s.query_counter + 1
      cpu_usage_gauge := cpu
      memory_usage_gauge := mem }
    match body with
    | none => (s1, .parseError)
    | some df =>
      ({ s1 with response_times := s1.response_times ++ [elapsed] },
       .ok ((m df).getD 0 0))

/-- Current-batch features, `main.py` lines 82–83: resample the diamonds dataset with
replacement (the drawn row indices are the list `idxs`) and select the
six feature columns. -/
def X_current (diamonds : FeatureTable) (idxs : List ℕ) : FeatureTable :=
  select featureCols (sampleRows idxs diamonds)

/-- Current-batch labels, `main.py` line 84. -/
def y_current (diamonds : FeatureTable) (idxs : List ℕ) : List ℚ :=
  colOf (sampleRows idxs diamonds) ("price")

/-- Shift every value of a column by `c`: the separation parameter used to
state monotonicity of the per-feature distance. -/
def shiftCol (c : ℚ) (xs : List ℚ) : List ℚ := xs.map (fun x => x + c)

/-- One monitoring cycle, `main.py` lines 80–103, translated statement by
statement: build the current batch, run `detect_data_drift` and set the
data-drift gauge, then run `detect_concept_drift` and set the
concept-drift gauge.  The body contains no exception handler, so a
comparator error aborts the cycle at the point it is raised: the result
pairs the state as mutated so far with `some e` for an escaping error
`e`, or `none` when the cycle ran to completion. -/
def monitor_drifts (θd θc : ℚ) (diamonds : FeatureTable) (idxs : List ℕ)
    (s : AppState) : AppState × Option DriftError :=
  let Xc := X_current diamonds idxs
  let yc := y_current diamonds idxs
  match detect_data_drift θd s.X_reference Xc with
  | .error e => (s, some e)
  | .ok (_, _, dscore) =>
    let s1 := { s with data_drift_gauge := dscore }
    match detect_concept_drift θc s.model_pipeline s.X_reference s.y_reference Xc yc with
    | .error e => (s1, some e)
    | .ok (_, cscore) => ({ s1 with concept_drift_gauge := cscore }, none)

/-- A tiny concrete diamonds-style dataset (all seven columns of one row)
used to instantiate theorems on concrete inputs. -/
def diamonds0 : FeatureTable :=
  ⟨[("carat", [1]), ("cut", [1]), ("color", [1]), ("clarity", [1]),
    ("depth", [1]), ("table", [1]), ("price", [1])]⟩

/-- A concrete process state whose model pipeline failed to load
(`model_pipeline = None`, `main.py` line 29), with previously published
gauge values 5 and 7. -/
def s0 : AppState :=
  { data_drift_gauge := 5
    concept_drift_gauge := 7
    query_counter := 0
    cpu_usage_gauge := 0
    memory_usage_gauge := 0
    response_times := []
    X_reference := X_reference diamonds0
    y_reference := y_reference diamonds0
    model_pipeline := none }

/-- A constant scoring model used to instantiate theorems. -/
def mconst : ScoringModel := fun _ => [0]

/-- A concrete process state with a loaded model pipeline. -/
def sOk : AppState :=
  { s0 with model_pipeline := some mconst }

/-- A fold by `max` over a list of zeros is zero. -/
theorem foldr_max_zero (l : List ℚ) (h : ∀ a ∈ l, a = 0) : l.foldr max 0 = 0 := by
  induction l with
  | nil => rfl
  | cons a l ih =>
    simp only [List.foldr_cons]
    rw [h a (by simp), ih (fun b hb => h b (by simp [hb]))]
    simp

/-- Every member of a list bounds its `max`-fold from below. -/
theorem le_foldr_max (l : List ℚ) (a : ℚ) (h : a ∈ l) : a ≤ l.foldr max 0 := by
  induction l with
  | nil => simp at h
  | cons b l ih =>
    simp only [List.foldr_cons]
    rcases List.mem_cons.mp h with h1 | h1
    · exact h1 ▸ le_max_left _ _
    · exact le_trans (ih h1) (le_max_right _ _)

/-- A `max`-fold is bounded by any nonnegative bound on the elements. -/
theorem foldr_max_le (l : List ℚ) (B : ℚ) (hB : 0 ≤ B) (h : ∀ a ∈ l, a ≤ B) :
    l.foldr max 0 ≤ B := by
  induction l with
  | nil => simpa using hB
  | cons a l ih =>
    simp only [List.foldr_cons, max_le_iff]
    exact ⟨h a (by simp), ih (fun b hb => h b (by simp [hb]))⟩

/-- The Kolmogorov–Smirnov distance of a sample against itself is zero. -/
theorem ksDistance_self (xs : List ℚ) : ksDistance xs xs = 0 := by
  apply foldr_max_zero
  intro a ha
  simp only [List.mem_map] at ha
  obtain ⟨t, _, rfl⟩ := ha
  simp

/-- Empirical CDF values are nonnegative. -/
theorem ecdf_nonneg (xs : List ℚ) (t : ℚ) : 0 ≤ ecdf xs t := by
  unfold ecdf
  positivity

/-- Empirical CDF values are at most one. -/
theorem ecdf_le_one (xs : List ℚ) (t : ℚ) : ecdf xs t ≤ 1 := by
  unfold ecdf
  apply div_le_one_of_le₀
  · exact_mod_cast List.length_filter_le _ _
  · positivity

/-- The empirical CDF of a nonempty sample reaches one at any point that
dominates the whole sample. -/
theorem ecdf_eq_one (xs : List ℚ) (t : ℚ) (hx : xs ≠ []) (h : ∀ x ∈ xs, x ≤ t) :
    ecdf xs t = 1 := by
  unfold ecdf
  rw [List.filter_eq_self.mpr (by intro a ha; exact decide_eq_true (h a ha))]
  rw [div_self]
  exact_mod_cast List.length_pos.mpr hx |>.ne'

/-- The empirical CDF is zero strictly below the whole sample. -/
theorem ecdf_eq_zero (xs : List ℚ) (t : ℚ) (h : ∀ x ∈ xs, t < x) :
    ecdf xs t = 0 := by
  unfold ecdf
  rw [List.filter_eq_nil_iff.mpr (by intro a ha; simpa using not_le.mpr (h a ha))]
  simp

/-- The gap between two empirical CDFs is at most one in absolute value. -/
theorem abs_ecdf_sub_le_one (xs ys : List ℚ) (t : ℚ) :
    |ecdf xs t - ecdf ys t| ≤ 1 := by
  have h1 := ecdf_nonneg xs t
  have h2 := ecdf_le_one xs t
  have h3 := ecdf_nonneg ys t
  have h4 := ecdf_le_one ys t
  rw [abs_le]
  constructor <;> linarith

/-- The Kolmogorov–Smirnov distance never exceeds one. -/
theorem ksDistance_le_one (xs ys : List ℚ) : ksDistance xs ys ≤ 1 := by
  apply foldr_max_le _ _ zero_le_one
  intro a ha
  simp only [List.mem_map] at ha
  obtain ⟨t, _, rfl⟩ := ha
  exact abs_ecdf_sub_le_one _ _ _

/-- When the current sample lies strictly above the reference sample,
the Kolmogorov–Smirnov distance is exactly one. -/
theorem ksDistance_separated (xs ys : List ℚ) (hx : xs ≠ []) (_hy : ys ≠ [])
    (h : ∀ x ∈ xs, ∀ y ∈ ys, x < y) : ksDistance xs ys = 1 := by
  apply le_antisymm (ksDistance_le_one xs ys)
  obtain ⟨M, hM⟩ := WithBot.ne_bot_iff_exists.mp (List.maximum_ne_bot_of_ne_nil hx)
  obtain ⟨hMmem, hMmax⟩ := List.maximum_eq_coe_iff.mp hM.symm
  have h1 : ecdf xs M = 1 := ecdf_eq_one xs M hx hMmax
  have h0 : ecdf ys M = 0 := ecdf_eq_zero ys M (fun y hy2 => h M hMmem y hy2)
  have hmem : |ecdf xs M - ecdf ys M| ∈ (xs ++ ys).map (fun t => |ecdf xs t - ecdf ys t|) :=
    List.mem_map_of_mem _ (List.mem_append_left _ hMmem)
  have := le_foldr_max _ _ hmem
  rw [h1, h0, show |(1:ℚ) - 0| = 1 by norm_num] at this
  exact this

/-- A reference sample fully below a current sample shifted by `c` keeps
Kolmogorov–Smirnov distance one. -/
theorem ksDistance_shift_eq_one (xs ys : List ℚ) (c : ℚ)
    (hx : xs ≠ []) (hy : ys ≠ [])
    (hsep : ∀ x ∈ xs, ∀ y ∈ ys, x < y + c) :
    ksDistance xs (shiftCol c ys) = 1 := by
  apply ksDistance_separated xs _ hx
  · simpa [shiftCol] using hy
  · intro x hx2 y hy2
    simp only [shiftCol, List.mem_map] at hy2
    obtain ⟨y0, hy0, rfl⟩ := hy2
    exact hsep x hx2 y0 hy0

/-- Self-comparison through the data-drift comparator: per-feature
distances all zero, score zero, verdict false. -/
theorem detect_data_drift_self (θ : ℚ) (T : FeatureTable)
    (h : nrows T ≠ 0) (hθ : 0 ≤ θ) :
    detect_data_drift θ T T = .ok (false, T.names.map (fun _ => (0:ℚ)), 0) := by
  have hdists : T.names.map (fun nm => ksDistance (colOf T nm) (colOf T nm))
      = T.names.map (fun _ => (0:ℚ)) :=
    List.map_congr_left (fun nm _ => ksDistance_self _)
  unfold detect_data_drift
  rw [if_neg (by simp), if_neg (by simp [h])]
  simp only [hdists]
  rw [List.sum_eq_zero (by simp), zero_div]
  rw [decide_eq_false (not_lt.mpr hθ)]

/-- A name occurring among the first components of an association list is
found by `find?`. -/
theorem find?_name (l : List (String × List ℚ)) (nm : String)
    (h : nm ∈ l.map Prod.fst) :
    ∃ c, l.find? (fun c => c.1 == nm) = some c ∧ c.1 = nm := by
  induction l with
  | nil => simp at h
  | cons a l ih =>
    by_cases ha : a.1 = nm
    · exact ⟨a, List.find?_cons_of_pos _ (by simp [ha]), ha⟩
    · have h2 : nm ∈ l.map Prod.fst := by
        simp only [List.map_cons, List.mem_cons] at h
        rcases h with h1 | h1
        · exact absurd h1.symm ha
        · exact h1
      obtain ⟨c, hc, hnm⟩ := ih h2
      exact ⟨c, by rw [List.find?_cons_of_neg _ (by simp [ha])]; exact hc, hnm⟩

/-- Selecting columns that all exist yields exactly the requested names. -/
theorem select_names (cs : List String) (t : FeatureTable)
    (h : ∀ nm ∈ cs, nm ∈ t.names) : (select cs t).names = cs := by
  induction cs with
  | nil => rfl
  | cons nm cs ih =>
    obtain ⟨c, hc, hnm⟩ := find?_name t.cols nm (h nm (by simp))
    have ht : (select (nm :: cs) t).cols
        = c :: cs.filterMap (fun nm2 => t.cols.find? (fun c2 => c2.1 == nm2)) := by
      simp [select, List.filterMap_cons, hc]
    show (select (nm :: cs) t).cols.map Prod.fst = nm :: cs
    rw [ht]
    simp only [List.map_cons, hnm]
    exact congrArg _ (ih (fun nm2 h2 => h nm2 (by simp [h2])))

/-- Every column of a selection is a column of the original table. -/
theorem select_cols_sub (cs : List String) (t : FeatureTable) :
    ∀ c ∈ (select cs t).cols, c ∈ t.cols := by
  intro c hc
  simp only [select, List.mem_filterMap] at hc
  obtain ⟨nm, _, hfind⟩ := hc
  exact List.mem_of_find?_eq_some hfind

/-- Selecting existing columns from a well-formed table preserves the row
count. -/
theorem nrows_select (cs : List String) (t : FeatureTable) (wf : WellFormed t)
    (hne : cs ≠ []) (h : ∀ nm ∈ cs, nm ∈ t.names) :
    nrows (select cs t) = nrows t := by
  cases cs with
  | nil => exact absurd rfl hne
  | cons nm cs =>
    obtain ⟨c, hc, _⟩ := find?_name t.cols nm (h nm (by simp))
    have ht : (select (nm :: cs) t).cols
        = c :: cs.filterMap (fun nm2 => t.cols.find? (fun c2 => c2.1 == nm2)) := by
      simp [select, List.filterMap_cons, hc]
    have hn : nrows (select (nm :: cs) t) = c.2.length := by
      unfold nrows
      rw [ht]
    rw [hn]
    exact wf c (List.mem_of_find?_eq_some hc)

/-- Resampling rows does not change the column names. -/
theorem sampleRows_names (idxs : List ℕ) (t : FeatureTable) :
    (sampleRows idxs t).names = t.names := by
  simp [sampleRows, FeatureTable.names, List.map_map]

/-- Every column of a resampled table has as many rows as indices drawn. -/
theorem wf_sampleRows (idxs : List ℕ) (t : FeatureTable) :
    ∀ c ∈ (sampleRows idxs t).cols, c.2.length = idxs.length := by
  intro c hc
  simp only [sampleRows, List.mem_map] at hc
  obtain ⟨a, _, rfl⟩ := hc
  simp

/-- A resample of a table with at least one column has as many rows as
indices drawn. -/
theorem nrows_sampleRows (idxs : List ℕ) (t : FeatureTable) (h : t.cols ≠ []) :
    nrows (sampleRows idxs t) = idxs.length := by
  obtain ⟨a, l, hl⟩ := List.exists_cons_of_ne_nil h
  unfold nrows sampleRows
  rw [hl]
  simp

/-- C1, counterexample: as written ("no exception escapes monitor_drifts")
the claim is false.  On the concrete state `s0` — model pipeline failed to
load, valid one-row dataset — the cycle ends with `ModelUnavailable`
escaping `monitor_drifts`, not with a caught-and-downgraded cycle. -/
theorem monitor_drifts_exception_escapes_cex :
    (monitor_drifts (1/2) (1/2) diamonds0 [0] s0).2 = some .ModelUnavailable := by
  decide

/-- C1, amended: `monitor_drifts` (lines 80–103) contains no exception
handler, so every error raised inside a comparator call escapes
`monitor_drifts` to its caller: if `detect_data_drift` fails with `e`, or
`detect_data_drift` succeeds and `detect_concept_drift` fails with `e`,
then the cycle ends with `e` propagated out of `monitor_drifts`.
Containment, if any, happens outside `monitor_drifts`, not inside it. -/
theorem monitor_drifts_propagates (θd θc : ℚ) (d : FeatureTable) (idxs : List ℕ)
    (s : AppState) (e : DriftError)
    (h : detect_data_drift θd s.X_reference (X_current d idxs) = .error e
      ∨ ((detect_data_drift θd s.X_reference (X_current d idxs)).isOk = true
        ∧ detect_concept_drift θc s.model_pipeline s.X_reference s.y_reference
            (X_current d idxs) (y_current d idxs) = .error e)) :
    (monitor_drifts θd θc d idxs s).2 = some e := by
  rcases h with h | ⟨hok, herr⟩
  · simp [monitor_drifts, h]
  · cases hd : detect_data_drift θd s.X_reference (X_current d idxs) with
    | error e2 => simp [hd, Except.isOk, Except.toBool] at hok
    | ok v =>
      obtain ⟨b, detail, dscore⟩ := v
      simp [monitor_drifts, hd, herr]

/-- Witness for C1 (amended), at the concrete failed-model state `s0`. -/
theorem monitor_drifts_propagates_w :
    (monitor_drifts (1/2) (1/2) diamonds0 [0] s0).2 = some DriftError.ModelUnavailable :=
  monitor_drifts_propagates (1/2) (1/2) diamonds0 [0] s0 DriftError.ModelUnavailable
    (Or.inr ⟨by decide, by rfl⟩)

/-- C2, counterexample: as written ("a failed cycle leaves both gauge
values unchanged — both results or neither") the claim is false.  On the
concrete state `s0` (gauges 5 and 7, model pipeline absent) the cycle
fails, yet the data-drift gauge has been overwritten with the fresh score:
the gauge write at line 88 precedes the concept-drift call at line 91. -/
theorem failed_cycle_partial_publish_cex :
    ((monitor_drifts (1/2) (1/2) diamonds0 [0] s0).2 ≠ none)
    ∧ (monitor_drifts (1/2) (1/2) diamonds0 [0] s0).1.data_drift_gauge
        ≠ s0.data_drift_gauge := by
  have hX : X_current diamonds0 [0] = X_reference diamonds0 := by decide
  have hd : detect_data_drift (1/2) s0.X_reference (X_current diamonds0 [0])
      = .ok (false, (X_reference diamonds0).names.map (fun _ => (0:ℚ)), 0) := by
    show detect_data_drift (1/2) (X_reference diamonds0) (X_current diamonds0 [0]) = _
    rw [hX]
    exact detect_data_drift_self (1/2) (X_reference diamonds0) (by decide) (by norm_num)
  have hm : monitor_drifts (1/2) (1/2) diamonds0 [0] s0
      = ({ s0 with data_drift_gauge := 0 }, some DriftError.ModelUnavailable) := by
    simp only [monitor_drifts]
    rw [hd]
    rfl
  rw [hm]
  constructor
  · simp
  · show (0 : ℚ) ≠ s0.data_drift_gauge
    norm_num [s0]

/-- C2, amended: a failing cycle always leaves the concept-drift gauge
unchanged, and a cycle that fails already in the data-drift computation
leaves the whole state (both gauges) unchanged; but a cycle that fails in
the concept-drift computation after the data-drift computation succeeded
has already updated the data-drift gauge (see the counterexample), so a
failing cycle may publish exactly one of the two results. -/
theorem failed_cycle_gauges (θd θc : ℚ) (d : FeatureTable) (idxs : List ℕ)
    (s : AppState) (e : DriftError)
    (h : (monitor_drifts θd θc d idxs s).2 = some e) :
    (monitor_drifts θd θc d idxs s).1.concept_drift_gauge = s.concept_drift_gauge
    ∧ (detect_data_drift θd s.X_reference (X_current d idxs) = .error e
        → (monitor_drifts θd θc d idxs s).1 = s) := by
  cases hd : detect_data_drift θd s.X_reference (X_current d idxs) with
  | error e2 => constructor <;> simp [monitor_drifts, hd]
  | ok v =>
    obtain ⟨b, detail, dscore⟩ := v
    cases hc : detect_concept_drift θc s.model_pipeline s.X_reference s.y_reference
        (X_current d idxs) (y_current d idxs) with
    | error e2 => constructor <;> simp [monitor_drifts, hd, hc]
    | ok w =>
      obtain ⟨b2, cscore⟩ := w
      exfalso
      simp [monitor_drifts, hd, hc] at h

/-- Witness for C2 (amended), at the concrete failed-model state `s0`. -/
theorem failed_cycle_gauges_w :
    (monitor_drifts (1/2) (1/2) diamonds0 [0] s0).1.concept_drift_gauge
      = s0.concept_drift_gauge :=
  (failed_cycle_gauges (1/2) (1/2) diamonds0 [0] s0 DriftError.ModelUnavailable
    (by decide)).1

/-- C3: for every feature table `T` with at least one row, the data-drift
comparison of `T` against itself yields drift score 0 and verdict false
(for any nonnegative configured threshold). -/
theorem data_drift_self_zero (θ : ℚ) (T : FeatureTable)
    (h : nrows T ≠ 0) (hθ : 0 ≤ θ) :
    ∃ detail, detect_data_drift θ T T = .ok (false, detail, 0) :=
  ⟨_, detect_data_drift_self θ T h hθ⟩

/-- Witness for C3, at the concrete one-row table `diamonds0`. -/
theorem data_drift_self_zero_w :
    ∃ detail, detect_data_drift (1/2) diamonds0 diamonds0 = .ok (false, detail, 0) :=
  data_drift_self_zero (1/2) diamonds0 (by decide) (by norm_num)

/-- C4: when the scoring model is absent (`model_pipeline is None`), the
concept-drift comparison fails with `ModelUnavailable` — it never returns
a defaulted score — and the error is surfaced to the caller of
`monitor_drifts` (assuming the cycle reaches the concept-drift step, i.e.
the data-drift computation succeeded). -/
theorem model_unavailable_surfaced (θd θc : ℚ) (d : FeatureTable) (idxs : List ℕ)
    (s : AppState) (hm : s.model_pipeline = none)
    (hdd : (detect_data_drift θd s.X_reference (X_current d idxs)).isOk = true) :
    detect_concept_drift θc s.model_pipeline s.X_reference s.y_reference
        (X_current d idxs) (y_current d idxs) = .error .ModelUnavailable
    ∧ (monitor_drifts θd θc d idxs s).2 = some .ModelUnavailable := by
  have h1 : detect_concept_drift θc s.model_pipeline s.X_reference s.y_reference
      (X_current d idxs) (y_current d idxs) = .error .ModelUnavailable := by
    rw [hm]; rfl
  refine ⟨h1, ?_⟩
  cases hd : detect_data_drift θd s.X_reference (X_current d idxs) with
  | error e2 => rw [hd] at hdd; simp [Except.isOk, Except.toBool] at hdd
  | ok v =>
    obtain ⟨b, detail, dscore⟩ := v
    simp [monitor_drifts, hd, h1]

/-- Witness for C4, at the concrete failed-model state `s0`. -/
theorem model_unavailable_surfaced_w :
    detect_concept_drift (1/2) s0.model_pipeline s0.X_reference s0.y_reference
        (X_current diamonds0 [0]) (y_current diamonds0 [0]) = .error .ModelUnavailable
    ∧ (monitor_drifts (1/2) (1/2) diamonds0 [0] s0).2 = some .ModelUnavailable :=
  model_unavailable_surfaced (1/2) (1/2) diamonds0 [0] s0 rfl (by decide)

/-- C5: the reference snapshot is captured once at startup
(`initState` sets it from the diamonds dataset, lines 46–48) and no
operation of the program mutates it afterwards: both `monitor_drifts` and
`predict` leave `X_reference` and `y_reference` exactly as they were, so
every monitoring cycle reads the same baseline. -/
theorem reference_snapshot_immutable (θd θc cpu mem elapsed : ℚ) (d : FeatureTable)
    (idxs : List ℕ) (b : Option FeatureTable) (mo : Option ScoringModel) (s : AppState) :
    (initState d mo).X_reference = X_reference d
    ∧ (initState d mo).y_reference = y_reference d
    ∧ (monitor_drifts θd θc d idxs s).1.X_reference = s.X_reference
    ∧ (monitor_drifts θd θc d idxs s).1.y_reference = s.y_reference
    ∧ (predict b cpu mem elapsed s).1.X_reference = s.X_reference
    ∧ (predict b cpu mem elapsed s).1.y_reference = s.y_reference := by
  refine ⟨rfl, rfl, ?_, ?_, ?_, ?_⟩ <;>
    first
      | (cases hd : detect_data_drift θd s.X_reference (X_current d idxs) with
          | error e2 => simp [monitor_drifts, hd]
          | ok v =>
            obtain ⟨b2, detail, dscore⟩ := v
            cases hc : detect_concept_drift θc s.model_pipeline s.X_reference s.y_reference
                (X_current d idxs) (y_current d idxs) with
            | error e3 => simp [monitor_drifts, hd, hc]
            | ok w => obtain ⟨b3, cscore⟩ := w; simp [monitor_drifts, hd, hc])
      | (cases hm : s.model_pipeline with
          | none => simp [predict, hm]
          | some m => cases b <;> simp [predict, hm])

/-- C7: for numeric columns with disjoint support (the current sample,
shifted by the separation `c`, lies entirely above the reference sample),
increasing the separation from `c` to `d ≥ c` never decreases the
per-feature Kolmogorov–Smirnov distance. -/
theorem ks_mono_in_separation (xs ys : List ℚ) (c d : ℚ)
    (hx : xs ≠ []) (hy : ys ≠ []) (hcd : c ≤ d)
    (hsep : ∀ x ∈ xs, ∀ y ∈ ys, x < y + c) :
    ksDistance xs (shiftCol c ys) ≤ ksDistance xs (shiftCol d ys) := by
  rw [ksDistance_shift_eq_one xs ys c hx hy hsep,
    ksDistance_shift_eq_one xs ys d hx hy
      (fun x hx2 y hy2 => lt_of_lt_of_le (hsep x hx2 y hy2) (by linarith))]

/-- Witness for C7, on concrete one-point samples. -/
theorem ks_mono_in_separation_w :
    ksDistance [0] (shiftCol 1 [10]) ≤ ksDistance [0] (shiftCol 2 [10]) :=
  ks_mono_in_separation [0] [10] 1 2 (by simp) (by simp) (by norm_num)
    (by intro x hx y hy
        simp only [List.mem_singleton] at hx hy
        subst hx; subst hy; norm_num)

/-- C8: a `/predict` call while the model pipeline is not loaded fails
with HTTP 500 and detail "Model pipeline not loaded properly" before any
observable state change: the returned state is exactly the input state, so
the query counter is not incremented and no gauge is updated
(`main.py` lines 56–57 precede lines 60–64). -/
theorem predict_no_model (b : Option FeatureTable) (cpu mem elapsed : ℚ)
    (s : AppState) (hm : s.model_pipeline = none) :
    predict b cpu mem elapsed s
      = (s, .httpError 500 ("Model pipeline not loaded properly")) := by
  unfold predict
  rw [hm]

/-- Witness for C8, at the concrete failed-model state `s0`. -/
theorem predict_no_model_w :
    predict none 0 0 0 s0
      = (s0, .httpError 500 ("Model pipeline not loaded properly")) :=
  predict_no_model none 0 0 0 s0 rfl

/-- C9: on every monitoring tick the current batch is 1000 rows resampled
with replacement from the same diamonds dataset as the reference, with the
same six feature columns selected: reference and current tables have
identical feature-name sets (namely `featureCols`), the current batch has
exactly 1000 rows, and the `SchemaMismatch`/`EmptyInput` conditions of the
data-drift comparison are unreachable (the comparison returns ok). -/
theorem current_batch_schema (θ : ℚ) (d : FeatureTable) (idxs : List ℕ)
    (wf : WellFormed d) (hsub : ∀ nm ∈ featureCols, nm ∈ d.names)
    (hrows : nrows d ≠ 0) (hlen : idxs.length = 1000) :
    (X_current d idxs).names = (X_reference d).names
    ∧ (X_reference d).names = featureCols
    ∧ nrows (X_current d idxs) = 1000
    ∧ (detect_data_drift θ (X_reference d) (X_current d idxs)).isOk = true := by
  have hcne : d.cols ≠ [] := by
    intro hnil
    have hcarat := hsub ("carat") (by simp [featureCols])
    rw [FeatureTable.names, hnil] at hcarat
    simp at hcarat
  have hnames_s : (sampleRows idxs d).names = d.names := sampleRows_names idxs d
  have hsub2 : ∀ nm ∈ featureCols, nm ∈ (sampleRows idxs d).names := by
    intro nm hnm
    rw [hnames_s]
    exact hsub nm hnm
  have hfc : featureCols ≠ [] := by simp [featureCols]
  have h2 : (X_reference d).names = featureCols := select_names _ _ hsub
  have h1 : (X_current d idxs).names = featureCols := select_names _ _ hsub2
  have hns : nrows (sampleRows idxs d) = idxs.length := nrows_sampleRows idxs d hcne
  have wfs : WellFormed (sampleRows idxs d) := by
    intro c hc
    rw [hns]
    exact wf_sampleRows idxs d c hc
  have h3 : nrows (X_current d idxs) = 1000 := by
    show nrows (select featureCols (sampleRows idxs d)) = 1000
    rw [nrows_select _ _ wfs hfc hsub2, hns, hlen]
  have h4 : nrows (X_reference d) = nrows d := nrows_select _ _ wf hfc hsub
  refine ⟨h1.trans h2.symm, h2, h3, ?_⟩
  unfold detect_data_drift
  rw [if_neg (by rw [h2, h1]; simp), if_neg (by
    rw [h4, h3]
    rintro (hc | hc)
    · exact hrows hc
    · exact absurd hc (by norm_num))]
  rfl

/-- Witness for C9, at the concrete dataset `diamonds0` with 1000 drawn
row indices. -/
theorem current_batch_schema_w :
    ((X_current diamonds0 (List.replicate 1000 0)).names
        = (X_reference diamonds0).names)
    ∧ (X_reference diamonds0).names = featureCols
    ∧ nrows (X_current diamonds0 (List.replicate 1000 0)) = 1000
    ∧ (detect_data_drift (1/2) (X_reference diamonds0)
        (X_current diamonds0 (List.replicate 1000 0))).isOk = true :=
  current_batch_schema (1/2) diamonds0 (List.replicate 1000 0)
    (show ∀ c ∈ diamonds0.cols, c.2.length = nrows diamonds0 by decide)
    (by decide) (by decide) (List.length_replicate 1000 0)

/-- C10: a `/predict` call with the model pipeline loaded increments the
query counter exactly once, before the request body is parsed or a
prediction attempted (`main.py` line 60 precedes lines 69–72): the counter
ends at its old value plus one for every body, including a malformed one
(`body = none`). -/
theorem query_counter_incremented_first (m : ScoringModel) (b : Option FeatureTable)
    (cpu mem elapsed : ℚ) (s : AppState) (hm : s.model_pipeline = some m) :
    (predict b cpu mem elapsed s).1.query_counter = s.query_counter + 1 := by
  unfold predict
  rw [hm]
  cases b <;> rfl

/-- Witness for C10, at the concrete loaded-model state `sOk` with a
malformed request body. -/
theorem query_counter_incremented_first_w :
    (predict none 0 0 0 sOk).1.query_counter = sOk.query_counter + 1 :=
  query_counter_incremented_first mconst none 0 0 0 sOk rfl

end TechChallenge
